import Mathlib

/-!
Verification of the motion-detection engine of TV-Webcam-Link
(`useMotionDetection` hook, file modelled here as `detectMotionLoop`,
`cleanup` and `setup`).

Shallow embedding conventions:
* JavaScript numbers are modelled as exact rationals (`ℚ`); pixel channel
  values are naturals (the source reads them from a `Uint8ClampedArray`).
* An `ImageData` is a `Frame`: width, height and a flat RGBA byte list.
* Reading a typed array out of range yields `undefined` in JavaScript, so
  any arithmetic on it yields `NaN` and every comparison with `NaN` is
  false.  We model a channel read as an `Option ℚ` and make a sampled
  position count as "changed" only when all six reads are in range and the
  luminance difference exceeds the threshold, which is exactly the
  observable behaviour of the source loop.
* The event loop is modelled as a labelled small-step system over a
  `World`: the `async` body of `setup` is split at its two `await` points
  (`getUserMedia`, `play`) into atomic segments, matching the host's
  run-to-completion scheduling; `cleanup` and timer callbacks are atomic
  steps.  A single in-flight acquisition is modelled, which covers the
  traces of interest.
-/

/-- A decoded camera frame (the source's `ImageData`): `width`, `height`
and the flat RGBA pixel array `data` (4 byte samples per pixel). -/
structure Frame where
  width : ℕ
  height : ℕ
  data : List ℕ
deriving DecidableEq, Repr

/-- Callback events emitted by the engine: `onMotionStart`, `onMotionEnd`
and `onError` (carrying the human-readable message). -/
inductive MEvent where
  | motionStart
  | motionEnd
  | errorEvt (msg : String)
deriving DecidableEq, Repr

/-- Source: `const pixelDiffThreshold = 50 - ((sensitivityRef.current - 1) / 99) * 45;`
in `detectMotionLoop`. -/
def pixelDiffThreshold (s : ℚ) : ℚ :=
  50 - ((s - 1) / 99) * 45

/-- Source: `const avg = (data[i] + data[i + 1] + data[i + 2]) / 3;` — the
grayscale proxy for the pixel starting at byte index `i`.  `none` models the
`NaN` produced when an index is out of range (`undefined` reads). -/
def avgAt (d : List ℕ) (i : ℕ) : Option ℚ :=
  match d.get? i, d.get? (i + 1), d.get? (i + 2) with
  | some r, some g, some b => some (((r : ℚ) + (g : ℚ) + (b : ℚ)) / 3)
  | _, _, _ => none

/-- Source: `const diff = Math.abs(avg1 - avg2); if (diff > pixelDiffThreshold)`.
A `NaN` (out-of-range) average never compares greater, so it never counts. -/
def sampledChanged (last cur : List ℕ) (i : ℕ) (thr : ℚ) : Bool :=
  match avgAt last i, avgAt cur i with
  | some a1, some a2 => decide (|a1 - a2| > thr)
  | _, _ => false

/-- The byte indices visited by
`for (let i = 0; i < currentData.length; i += 4 * resolution)` with
`resolution = 4`: the multiples of 16 below `len`. -/
def sampleIndices (len : ℕ) : List ℕ :=
  (List.range ((len + 15) / 16)).map (fun k => 16 * k)

/-- Source: the `changedPixels` accumulator of the sampling loop in
`detectMotionLoop`. -/
def changedPixels (last cur : List ℕ) (thr : ℚ) : ℕ :=
  (sampleIndices cur.length).countP (fun i => sampledChanged last cur i thr)

/-- Source: `const totalPixelsChecked = (width * height) / resolution;`,
`const motionPixelThreshold = totalPixelsChecked * 0.001;`,
`if (changedPixels > motionPixelThreshold)` — the motion-present decision
for a tick, taken on the current frame's dimensions. -/
def motionPresent (s : ℚ) (prev cur : Frame) : Bool :=
  decide ((changedPixels prev.data cur.data (pixelDiffThreshold s) : ℚ) >
    ((cur.width : ℚ) * (cur.height : ℚ)) / 4 * (1 / 1000))

/-- The cross-tick state owned by the detection loop: `isDetectingMotionRef`,
`motionTimeoutRef` (modelled as the absolute deadline of the pending
silence timer, set time + 1000 ms) and `lastImageDataRef`. -/
structure DetectState where
  isDetectingMotion : Bool
  motionTimeout : Option ℕ
  lastImageData : Option Frame
deriving DecidableEq, Repr

/-- One synchronous pass of `detectMotionLoop` at time `t` (ms) on a frame
`f` read back from the canvas, with sensitivity `s`, assuming the video
readiness guards passed.  Returns the updated state and the callbacks
invoked during the pass.  Faithful to the source order: the zero-dimension
guard, then the first-frame branch, then the comparison and the decision
rule; a motion-present tick clears any pending silence timer and schedules
a fresh one 1000 ms out; `onMotionStart` fires only on the
idle-to-active edge. -/
def detectMotionLoop (s : ℚ) (f : Frame) (t : ℕ) (st : DetectState) :
    DetectState × List MEvent :=
  if f.width = 0 ∨ f.height = 0 then
    (st, [])
  else
    match st.lastImageData with
    | none => ({ st with lastImageData := some f }, [])
    | some prev =>
      if motionPresent s prev f then
        ({ isDetectingMotion := true
           motionTimeout := some (t + 1000)
           lastImageData := some f },
         if st.isDetectingMotion then [] else [MEvent.motionStart])
      else
        ({ st with lastImageData := some f }, [])

/-- The silence-timer callback
`setTimeout(() => { isDetectingMotionRef.current = false; onMotionEndRef.current(); }, 1000)`
firing at time `t`.  It runs only if the pending timer's deadline is
exactly `t` — a deadline overwritten by a later motion-present tick was
cleared with `clearTimeout`, so the old timer never fires. -/
def timerFire (t : ℕ) (st : DetectState) : DetectState × List MEvent :=
  if st.motionTimeout = some t then
    ({ st with isDetectingMotion := false, motionTimeout := none },
     [MEvent.motionEnd])
  else
    (st, [])

/-- One camera track of a `MediaStream`: the id of the session it belongs
to and whether `track.stop()` has been called on it. -/
structure Track where
  sessionId : ℕ
  stopped : Bool
deriving DecidableEq, Repr

/-- The refs and React state owned by the hook besides the detection
state: `requestRef` (pending `requestAnimationFrame` id), `streamRef`
(session id of the held `MediaStream`), the `stream` React state,
`videoRef` (`some b` = an in-memory video element exists and `b` says
whether its `srcObject` is still attached) and `canvasRef`. -/
structure Engine where
  detect : DetectState
  requestId : Option ℕ
  streamRef : Option ℕ
  streamState : Option ℕ
  videoRef : Option Bool
  canvasRef : Bool
deriving DecidableEq, Repr

/-- Where an in-flight `setup()` call is suspended: waiting on
`getUserMedia`, or waiting on `videoElement.play()` for session `sid`
(`srcAttached` records whether an interleaved `cleanup` has nulled the
element's `srcObject`, which makes `play()` reject with `AbortError`). -/
inductive SetupPhase where
  | awaitingMedia
  | awaitingPlay (sid : ℕ) (srcAttached : Bool)
deriving DecidableEq, Repr

/-- The whole event-loop world: the hook's state, every track ever
created, the suspended `setup` continuation (at most one modelled), and
fresh-id counters for sessions and animation-frame requests. -/
structure World where
  engine : Engine
  tracks : List Track
  pendingSetup : Option SetupPhase
  nextSession : ℕ
  nextReq : ℕ
deriving DecidableEq, Repr

/-- The engine state `cleanup` leaves behind: no pending request, no
pending timer, no stream, no video, no retained frame, motion flag
cleared. -/
def blankEngine : Engine :=
  { detect := { isDetectingMotion := false, motionTimeout := none, lastImageData := none }
    requestId := none
    streamRef := none
    streamState := none
    videoRef := none
    canvasRef := false }

/-- Source: the `cleanup` callback.  `cancelAnimationFrame`,
`clearTimeout`, stop every track of the held stream, null `videoRef`
(after detaching its `srcObject`, which also aborts a pending `play()`
of that element), `setStream(null)`, drop the retained frame, clear the
motion flag, drop the canvas.  An in-flight `setup` continuation is NOT
cancelled — the source has no such mechanism — but if it is parked on
`play()` the detach of `srcObject` is recorded.  Invokes no callback. -/
def cleanup (w : World) : World :=
  { w with
    engine := blankEngine
    tracks := w.tracks.map (fun tr =>
      if w.engine.streamRef = some tr.sessionId then { tr with stopped := true } else tr)
    pendingSetup :=
      match w.pendingSetup with
      | some (SetupPhase.awaitingPlay sid _) =>
          if w.engine.videoRef ≠ none then some (SetupPhase.awaitingPlay sid false)
          else w.pendingSetup
      | p => p }

/-- The atomic segments the host event loop can run, each a label of the
small-step system: the synchronous head of `setup()` up to its first
`await`; resolution or rejection of `getUserMedia`; resolution or
`AbortError` rejection of `play()`; `cleanup` (the `enabled = false`
branch of the effect); an animation-frame tick delivering frame `f` at
time `t`; the silence timer firing at time `t`. -/
inductive Label where
  | setupStart
  | acqResolve
  | acqReject (abortErr : Bool) (msg : String)
  | playResolve
  | playAbort
  | disable
  | tick (f : Frame) (t : ℕ)
  | timer (t : ℕ)

/-- The small-step transition function of the engine at sensitivity `s`:
`step s w l = some (w2, evs)` when segment `l` can run in world `w`,
yielding world `w2` and invoking the callbacks `evs` in order; `none`
when the segment is not enabled (no continuation parked there, no
pending request, no live timer with that deadline). -/
def step (s : ℚ) (w : World) : Label → Option (World × List MEvent)
  | Label.setupStart =>
      some ({ cleanup w with pendingSetup := some SetupPhase.awaitingMedia }, [])
  | Label.acqResolve =>
      match w.pendingSetup with
      | some SetupPhase.awaitingMedia =>
          let sid := w.nextSession
          some ({ w with
                  engine := { w.engine with
                    streamState := some sid
                    streamRef := some sid
                    videoRef := some true
                    canvasRef := true }
                  tracks := w.tracks ++ [{ sessionId := sid, stopped := false }]
                  pendingSetup := some (SetupPhase.awaitingPlay sid true)
                  nextSession := sid + 1 }, [])
      | _ => none
  | Label.acqReject ab msg =>
      match w.pendingSetup with
      | some SetupPhase.awaitingMedia =>
          some ({ w with pendingSetup := none },
                if ab then [] else [MEvent.errorEvt msg])
      | _ => none
  | Label.playResolve =>
      match w.pendingSetup with
      | some (SetupPhase.awaitingPlay _ true) =>
          some ({ w with
                  engine := { w.engine with requestId := some w.nextReq }
                  nextReq := w.nextReq + 1
                  pendingSetup := none }, [])
      | _ => none
  | Label.playAbort =>
      match w.pendingSetup with
      | some (SetupPhase.awaitingPlay _ false) =>
          some ({ w with pendingSetup := none }, [])
      | _ => none
  | Label.disable => some (cleanup w, [])
  | Label.tick f t =>
      match w.engine.requestId with
      | some _ =>
          let r := detectMotionLoop s f t w.engine.detect
          some ({ w with
                  engine := { w.engine with detect := r.1, requestId := some w.nextReq }
                  nextReq := w.nextReq + 1 }, r.2)
      | none => none
  | Label.timer t =>
      if w.engine.detect.motionTimeout = some t then
        let r := timerFire t w.engine.detect
        some ({ w with engine := { w.engine with detect := r.1 } }, r.2)
      else none

/-- Run a list of segments in order, skipping the ones that are not
enabled, collecting the callbacks invoked along the way. -/
def run (s : ℚ) : World → List Label → World × List MEvent
  | w, [] => (w, [])
  | w, l :: ls =>
      match step s w l with
      | none => run s w ls
      | some (w2, evs) =>
          let r := run s w2 ls
          (r.1, evs ++ r.2)

/-- The world before the hook ever runs: nothing held, nothing pending. -/
def initialWorld : World :=
  { engine := blankEngine
    tracks := []
    pendingSetup := none
    nextSession := 0
    nextReq := 0 }

/-- A 2x2 frame of black pixels (16 RGBA bytes, all 0). -/
def frameLo : Frame :=
  { width := 2, height := 2, data := List.replicate 16 0 }

/-- A 2x2 frame of white pixels (16 RGBA bytes, all 255). -/
def frameHi : Frame :=
  { width := 2, height := 2, data := List.replicate 16 255 }

/-- A 1x1 black frame (4 RGBA bytes) — used to exercise a retained
previous frame whose dimensions differ from the current frame. -/
def frameTiny : Frame :=
  { width := 1, height := 1, data := [0, 0, 0, 255] }

/-- The segment sequence of an uninterrupted re-enable: the synchronous
head of `setup` (which runs `cleanup`), then `getUserMedia` resolving,
then `play()` resolving. -/
def reenableTrace : List Label :=
  [Label.setupStart, Label.acqResolve, Label.playResolve]

/-- The race trace: `setup` suspends on `getUserMedia`; `disable` runs
while the acquisition is in flight; the acquisition then resolves, `play`
resolves, and two frames are sampled. -/
def raceTrace : List Label :=
  [Label.setupStart, Label.disable, Label.acqResolve, Label.playResolve,
   Label.tick frameLo 0, Label.tick frameHi 16]

/-- A detection state sitting in `Active` with a silence timer pending at
deadline 1500 and `frameLo` retained. -/
def activeState : DetectState :=
  { isDetectingMotion := true, motionTimeout := some 1500, lastImageData := some frameLo }

/-- An idle detection state with `frameLo` retained. -/
def idleWithPrev : DetectState :=
  { isDetectingMotion := false, motionTimeout := none, lastImageData := some frameLo }

/-- A world holding one live camera session (id 0, one live track), used
to instantiate the re-enable theorem. -/
def enabledWorld : World :=
  { engine := { blankEngine with
      streamRef := some 0, streamState := some 0, requestId := some 0
      videoRef := some true, canvasRef := true }
    tracks := [{ sessionId := 0, stopped := false }]
    pendingSetup := none
    nextSession := 1
    nextReq := 1 }

/-- A world in the `Active` motion state with a silence timer pending,
used to instantiate the teardown theorems. -/
def activeWorld : World :=
  { engine := { blankEngine with
      detect := activeState
      streamRef := some 0, streamState := some 0, requestId := some 3
      videoRef := some true, canvasRef := true }
    tracks := [{ sessionId := 0, stopped := false }]
    pendingSetup := none
    nextSession := 1
    nextReq := 4 }

lemma sampledChanged_lo_hi :
    sampledChanged frameLo.data frameHi.data 0 (pixelDiffThreshold 50) = true := by
  norm_num [sampledChanged, avgAt, pixelDiffThreshold, frameLo, frameHi]

lemma changedPixels_lo_hi :
    changedPixels frameLo.data frameHi.data (pixelDiffThreshold 50) = 1 := by
  have h : sampleIndices frameHi.data.length = [0] := by decide
  rw [changedPixels, h, List.countP_cons, List.countP_nil, sampledChanged_lo_hi]
  rfl

lemma motionPresent_lo_hi : motionPresent 50 frameLo frameHi = true := by
  rw [motionPresent, changedPixels_lo_hi]
  norm_num [frameHi]

lemma sampledChanged_tiny_hi :
    sampledChanged frameTiny.data frameHi.data 0 (pixelDiffThreshold 50) = true := by
  norm_num [sampledChanged, avgAt, pixelDiffThreshold, frameTiny, frameHi]

lemma changedPixels_tiny_hi :
    changedPixels frameTiny.data frameHi.data (pixelDiffThreshold 50) = 1 := by
  have h : sampleIndices frameHi.data.length = [0] := by decide
  rw [changedPixels, h, List.countP_cons, List.countP_nil, sampledChanged_tiny_hi]
  rfl

lemma motionPresent_tiny_hi : motionPresent 50 frameTiny frameHi = true := by
  rw [motionPresent, changedPixels_tiny_hi]
  norm_num [frameHi]

/-- C1: for every sensitivity s in [1,100] the per-pixel difference
threshold used on a tick equals 50 - ((s-1)/99)*45 exactly; in particular
threshold(1) = 50 and threshold(100) = 5. -/
theorem pixelDiffThreshold_linear :
    (∀ s : ℚ, 1 ≤ s → s ≤ 100 →
      pixelDiffThreshold s = 50 - ((s - 1) / 99) * 45) ∧
    pixelDiffThreshold 1 = 50 ∧ pixelDiffThreshold 100 = 5 := by
  refine ⟨fun s _ _ => rfl, ?_, ?_⟩ <;> norm_num [pixelDiffThreshold]

/-- Witness for C1 at sensitivity 50. -/
theorem pixelDiffThreshold_linear_witness :
    pixelDiffThreshold 50 = 50 - (((50 : ℚ) - 1) / 99) * 45 :=
  pixelDiffThreshold_linear.1 50 (by norm_num) (by norm_num)

/-- C5: on the first tick after (re)acquisition (no retained previous
frame), the tick stores the current buffer as the new previous buffer,
performs no comparison, invokes no callback and changes nothing else. -/
theorem first_tick_stores_and_is_silent (s : ℚ) (f : Frame) (t : ℕ)
    (st : DetectState) (h : st.lastImageData = none)
    (hw : 0 < f.width) (hh : 0 < f.height) :
    detectMotionLoop s f t st = ({ st with lastImageData := some f }, []) := by
  have hw0 : ¬ f.width = 0 := hw.ne'
  have hh0 : ¬ f.height = 0 := hh.ne'
  simp [detectMotionLoop, h, hw0, hh0]

/-- Witness for C5 on a concrete empty state and a 2x2 frame. -/
theorem first_tick_stores_and_is_silent_witness :
    detectMotionLoop 50 frameLo 0
        { isDetectingMotion := false, motionTimeout := none, lastImageData := none } =
      ({ isDetectingMotion := false, motionTimeout := none,
         lastImageData := some frameLo }, []) :=
  first_tick_stores_and_is_silent 50 frameLo 0 _ rfl (by decide) (by decide)

/-- C2: while the state is Active, any tick invokes no callback and keeps
the state Active (so Active to Idle never happens on a tick); a
motion-present tick replaces the pending silence timer with a fresh one
due 1000 ms later; the silence timer, when it fires at its deadline,
moves the state to Idle and invokes the motion-end callback exactly once;
a timer whose deadline was superseded does nothing. -/
theorem active_tick_and_silence_timer (s : ℚ) (prev f : Frame) (t : ℕ)
    (st : DetectState) (hact : st.isDetectingMotion = true)
    (hprev : st.lastImageData = some prev) :
    (detectMotionLoop s f t st).2 = [] ∧
    (detectMotionLoop s f t st).1.isDetectingMotion = true ∧
    (motionPresent s prev f = true → ¬ f.width = 0 → ¬ f.height = 0 →
      (detectMotionLoop s f t st).1.motionTimeout = some (t + 1000)) ∧
    (∀ d, st.motionTimeout = some d →
      timerFire d st =
        ({ st with isDetectingMotion := false, motionTimeout := none },
         [MEvent.motionEnd])) ∧
    (∀ d, st.motionTimeout ≠ some d → timerFire d st = (st, [])) := by
  refine ⟨?_, ?_, ?_, fun d hd => by simp [timerFire, hd],
    fun d hd => by simp [timerFire, hd]⟩
  · rw [detectMotionLoop]
    split
    · rfl
    · simp only [hprev]
      split
      · simp [hact]
      · rfl
  · rw [detectMotionLoop]
    split
    · exact hact
    · simp only [hprev]
      split
      · rfl
      · exact hact
  · intro hm hw0 hh0
    simp [detectMotionLoop, hprev, hm, hw0, hh0]

/-- Witness for C2: Active state with a pending timer at 1500, a full-white
frame against a retained black frame at time 600. -/
theorem active_tick_and_silence_timer_witness :
    (detectMotionLoop 50 frameHi 600 activeState).2 = [] ∧
    (detectMotionLoop 50 frameHi 600 activeState).1.isDetectingMotion = true ∧
    (detectMotionLoop 50 frameHi 600 activeState).1.motionTimeout = some 1600 ∧
    timerFire 1500 activeState =
      ({ activeState with isDetectingMotion := false, motionTimeout := none },
       [MEvent.motionEnd]) := by
  have h := active_tick_and_silence_timer 50 frameLo frameHi 600 activeState rfl rfl
  exact ⟨h.1, h.2.1,
    h.2.2.1 motionPresent_lo_hi (by decide) (by decide),
    h.2.2.2.1 1500 rfl⟩

/-- C3: with a retained previous frame of the same dimensions, if every
sampled position counts as changed then `changedPixels` equals the number
of sampled positions — which is width*height/4 whenever that quotient is
exact — the tick is classified motion-present, and from Idle it invokes
the motion-start callback exactly once. -/
theorem allchanged_full_count (s : ℚ) (prev f : Frame) (t : ℕ)
    (st : DetectState) (hprev : st.lastImageData = some prev)
    (_hpw : prev.width = f.width) (_hph : prev.height = f.height)
    (hw : 0 < f.width) (hh : 0 < f.height)
    (hlen : f.data.length = 4 * (f.width * f.height))
    (hall : ∀ i ∈ sampleIndices f.data.length,
      sampledChanged prev.data f.data i (pixelDiffThreshold s) = true) :
    changedPixels prev.data f.data (pixelDiffThreshold s) =
      (f.width * f.height + 3) / 4 ∧
    (4 ∣ f.width * f.height →
      changedPixels prev.data f.data (pixelDiffThreshold s) =
        f.width * f.height / 4) ∧
    motionPresent s prev f = true ∧
    (st.isDetectingMotion = false →
      (detectMotionLoop s f t st).2 = [MEvent.motionStart]) := by
  have hcount : changedPixels prev.data f.data (pixelDiffThreshold s) =
      (f.data.length + 15) / 16 := by
    rw [changedPixels, List.countP_eq_length.mpr hall]
    simp [sampleIndices]
  have h1 : changedPixels prev.data f.data (pixelDiffThreshold s) =
      (f.width * f.height + 3) / 4 := by
    rw [hcount, hlen]; omega
  have hn : 0 < f.width * f.height := Nat.mul_pos hw hh
  have hm : motionPresent s prev f = true := by
    rw [motionPresent, h1]
    simp only [decide_eq_true_eq]
    have key : (4 : ℚ) * (((f.width * f.height + 3) / 4 : ℕ) : ℚ) ≥
        ((f.width * f.height : ℕ) : ℚ) := by
      have : f.width * f.height ≤ 4 * ((f.width * f.height + 3) / 4) := by omega
      exact_mod_cast this
    have hn1 : (1 : ℚ) ≤ ((f.width * f.height : ℕ) : ℚ) := by exact_mod_cast hn
    have hcast : (f.width : ℚ) * (f.height : ℚ) = ((f.width * f.height : ℕ) : ℚ) := by
      push_cast; ring
    rw [hcast]
    linarith
  refine ⟨h1, fun hdvd => by rw [h1]; omega, hm, fun hidle => ?_⟩
  simp [detectMotionLoop, hprev, hm, hw.ne', hh.ne', hidle]

/-- Witness for C3: black-to-white 2x2 frames, idle state; the single
sampled position is changed, the count is the full sampled count 1, and
the motion-start callback fires. -/
theorem allchanged_full_count_witness :
    changedPixels frameLo.data frameHi.data (pixelDiffThreshold 50) = 1 ∧
    (detectMotionLoop 50 frameHi 0 idleWithPrev).2 = [MEvent.motionStart] := by
  have hall : ∀ i ∈ sampleIndices frameHi.data.length,
      sampledChanged frameLo.data frameHi.data i (pixelDiffThreshold 50) = true := by
    intro i hi
    have hs : sampleIndices frameHi.data.length = [0] := by decide
    rw [hs] at hi
    have h0 : i = 0 := by simpa using hi
    rw [h0]
    exact sampledChanged_lo_hi
  have h := allchanged_full_count 50 frameLo frameHi 0 idleWithPrev rfl rfl rfl
    (by decide) (by decide) (by decide) hall
  exact ⟨h.1, h.2.2.2 rfl⟩

/-- Counterexample to C4: a retained 1x1 previous frame against a 2x2
current frame — dimensions differ, yet the tick performs the comparison
anyway, invokes the motion-start callback and transitions the state. -/
theorem dim_mismatch_counterexample :
    (frameTiny.width ≠ frameHi.width ∨ frameTiny.height ≠ frameHi.height) ∧
    (detectMotionLoop 50 frameHi 7
        { isDetectingMotion := false, motionTimeout := none,
          lastImageData := some frameTiny }).2 = [MEvent.motionStart] ∧
    (detectMotionLoop 50 frameHi 7
        { isDetectingMotion := false, motionTimeout := none,
          lastImageData := some frameTiny }).1.isDetectingMotion = true := by
  have hw : ¬ frameHi.width = 0 := by decide
  have hh : ¬ frameHi.height = 0 := by decide
  refine ⟨Or.inl (by decide), ?_, ?_⟩ <;>
    simp [detectMotionLoop, motionPresent_tiny_hi, hw, hh]

/-- C4 as amended: the tick never compares dimensions.  With any retained
previous frame and a current frame of positive dimensions it proceeds to
the comparison (the current frame replaces the retained one and the
decision is taken from the changed-pixel count, so callbacks and state
transitions can occur from such a tick); a sampled position whose reads
fall outside the previous buffer merely never counts as changed (the
out-of-range read yields undefined, and the NaN comparison is false), so
no out-of-bounds access error occurs. -/
theorem dim_mismatch_not_skipped (s : ℚ) (prev f : Frame) (t : ℕ)
    (st : DetectState) (hprev : st.lastImageData = some prev)
    (hw : 0 < f.width) (hh : 0 < f.height)
    (_hdim : prev.width ≠ f.width ∨ prev.height ≠ f.height) :
    (detectMotionLoop s f t st).1.lastImageData = some f ∧
    ((detectMotionLoop s f t st).2 =
      if motionPresent s prev f = true ∧ st.isDetectingMotion = false
      then [MEvent.motionStart] else []) ∧
    (∀ i, prev.data.length ≤ i + 2 →
      sampledChanged prev.data f.data i (pixelDiffThreshold s) = false) := by
  refine ⟨?_, ?_, ?_⟩
  · rw [detectMotionLoop, if_neg (by simp [hw.ne', hh.ne'])]
    simp only [hprev]
    split <;> rfl
  · rw [detectMotionLoop, if_neg (by simp [hw.ne', hh.ne'])]
    simp only [hprev]
    rcases hmp : motionPresent s prev f with _ | _ <;>
      rcases hdet : st.isDetectingMotion with _ | _ <;> simp_all
  · intro i hi
    have hnone : prev.data.get? (i + 2) = none := by
      rw [List.get?_eq_none]; omega
    rw [sampledChanged, avgAt, hnone]
    rcases prev.data.get? i with _ | r <;>
      rcases prev.data.get? (i + 1) with _ | g <;> rfl

/-- Witness for the amended C4 at the concrete mismatched pair: the 1x1
previous frame (4 bytes) against the 2x2 current frame; sampled index 16
reads past the previous buffer and counts as unchanged. -/
theorem dim_mismatch_not_skipped_witness :
    (detectMotionLoop 50 frameHi 7
        { isDetectingMotion := false, motionTimeout := none,
          lastImageData := some frameTiny }).1.lastImageData = some frameHi ∧
    sampledChanged frameTiny.data frameHi.data 16 (pixelDiffThreshold 50) = false := by
  have h := dim_mismatch_not_skipped 50 frameTiny frameHi 7
    { isDetectingMotion := false, motionTimeout := none,
      lastImageData := some frameTiny } rfl (by decide) (by decide)
    (Or.inl (by decide))
  exact ⟨h.1, h.2.2 16 (by decide)⟩

/-- C6: `cleanup` (the teardown `disable()` runs) is idempotent — running
it twice yields exactly the state of running it once — and its end state
retains no camera session, no pending animation-frame request, no pending
silence timer, no previous frame, and the motion state is reset to Idle. -/
theorem cleanup_idempotent (w : World) :
    cleanup (cleanup w) = cleanup w ∧
    (cleanup w).engine.streamRef = none ∧
    (cleanup w).engine.requestId = none ∧
    (cleanup w).engine.detect.motionTimeout = none ∧
    (cleanup w).engine.detect.lastImageData = none ∧
    (cleanup w).engine.detect.isDetectingMotion = false := by
  refine ⟨?_, rfl, rfl, rfl, rfl, rfl⟩
  rcases w with ⟨e, tr, ps, ns, nr⟩
  rcases ps with _ | p
  · simp [cleanup, blankEngine]
  · rcases p with _ | ⟨sid, b⟩
    · simp [cleanup, blankEngine]
    · by_cases hv : e.videoRef = none <;> simp [cleanup, blankEngine, hv]

/-- C10: the teardown itself invokes no callback — disabling from the
Active state (silence timer pending) cancels the timer and resets the
state to Idle without invoking the motion-end callback. -/
theorem disable_invokes_no_callback (s : ℚ) (w : World) (d : ℕ)
    (_hact : w.engine.detect.isDetectingMotion = true)
    (_htimer : w.engine.detect.motionTimeout = some d) :
    step s w Label.disable = some (cleanup w, []) ∧
    (cleanup w).engine.detect.isDetectingMotion = false ∧
    (cleanup w).engine.detect.motionTimeout = none :=
  ⟨rfl, rfl, rfl⟩

/-- Witness for C10 on the concrete Active world with a timer pending at
deadline 1500. -/
theorem disable_invokes_no_callback_witness :
    step 50 activeWorld Label.disable = some (cleanup activeWorld, []) ∧
    (cleanup activeWorld).engine.detect.isDetectingMotion = false ∧
    (cleanup activeWorld).engine.detect.motionTimeout = none :=
  disable_invokes_no_callback 50 activeWorld 1500 rfl rfl

/-- C9: a non-benign acquisition failure is surfaced exactly once through
the error callback, carrying its message, and leaves the engine disabled
(no sampling loop scheduled, no session, nothing pending — so no retry);
an `AbortError`-class failure (interrupted start) is suppressed silently. -/
theorem acquisition_failure_surfaced_once (s : ℚ) (w : World) (msg : String) :
    (run s w [Label.setupStart, Label.acqReject false msg]).2 =
      [MEvent.errorEvt msg] ∧
    (run s w [Label.setupStart, Label.acqReject false msg]).1.engine.requestId = none ∧
    (run s w [Label.setupStart, Label.acqReject false msg]).1.engine.streamRef = none ∧
    (run s w [Label.setupStart, Label.acqReject false msg]).1.pendingSetup = none ∧
    (run s w [Label.setupStart, Label.acqReject true msg]).2 = [] := by
  refine ⟨?_, ?_, ?_, ?_, ?_⟩ <;> simp [run, step, cleanup, blankEngine]

/-- C7: an uninterrupted re-enable from an enabled world first runs the
full teardown and only then re-acquires: afterwards there is exactly one
held camera session (the freshly allocated one), exactly one scheduled
sampling tick, no suspended setup, every track of the previous session is
stopped, and no callback fired during the whole sequence. -/
theorem reenable_exactly_one_session (s : ℚ) (w : World) (sid : ℕ)
    (h : w.engine.streamRef = some sid) :
    (run s w reenableTrace).2 = [] ∧
    (run s w reenableTrace).1.engine.streamRef = some w.nextSession ∧
    (run s w reenableTrace).1.engine.requestId = some w.nextReq ∧
    (run s w reenableTrace).1.pendingSetup = none ∧
    (run s w reenableTrace).1.tracks =
      w.tracks.map (fun tr =>
        if sid = tr.sessionId then { tr with stopped := true } else tr) ++
        [{ sessionId := w.nextSession, stopped := false }] := by
  refine ⟨?_, ?_, ?_, ?_, ?_⟩ <;> simp [reenableTrace, run, step, cleanup, blankEngine, h]

/-- Witness for C7: re-enabling the concrete enabled world (session 0,
one live track) leaves session 1 with its single live track, the old
track stopped, and one scheduled tick. -/
theorem reenable_exactly_one_session_witness :
    (run 50 enabledWorld reenableTrace).2 = [] ∧
    (run 50 enabledWorld reenableTrace).1.engine.streamRef = some 1 ∧
    (run 50 enabledWorld reenableTrace).1.engine.requestId = some 1 ∧
    (run 50 enabledWorld reenableTrace).1.tracks =
      [{ sessionId := 0, stopped := true }, { sessionId := 1, stopped := false }] := by
  have h := reenable_exactly_one_session 50 enabledWorld 0 rfl
  refine ⟨h.1, h.2.1, h.2.2.1, ?_⟩
  rw [h.2.2.2.2]
  rfl

/-- C8 fails on the code: `disable` run while a camera acquisition is in
flight does not cancel it — the suspended `setup` continuation survives,
restarts the sampling loop when `getUserMedia` resolves, and a later
motion tick invokes the motion-start callback after `disable` returned;
the acquired session's tracks are never stopped.  The first conjunct
checks that nothing had fired by the time `disable` returned. -/
theorem inflight_acquisition_survives_disable :
    (run 50 initialWorld [Label.setupStart, Label.disable]).2 = [] ∧
    (run 50 initialWorld raceTrace).2 = [MEvent.motionStart] ∧
    (run 50 initialWorld raceTrace).1.engine.requestId ≠ none ∧
    (run 50 initialWorld raceTrace).1.tracks =
      [{ sessionId := 0, stopped := false }] := by
  have hLo : ¬ (frameLo.width = 0 ∨ frameLo.height = 0) := by decide
  have hHi : ¬ (frameHi.width = 0 ∨ frameHi.height = 0) := by decide
  refine ⟨?_, ?_, ?_, ?_⟩ <;>
    simp [raceTrace, run, step, cleanup, blankEngine, initialWorld,
      detectMotionLoop, hLo, hHi, motionPresent_lo_hi]
